import Mathlib

/-!
Shallow embedding of the flower-shop storefront's cart / checkout /
admin-order logic, translated from the TypeScript source:

* `App.tsx` (`src/unnamed/part_000`): cart state, `handleUpdateQuantity`,
  `handleCheckout` with its success path and its catch-all fallback path;
* `AdminOrders` (`src/unnamed/part_003`): `handleUpdateStatus`,
  `handleAcceptOrder`, `handleAssignDriver`, `handleDeleteOrder`;
* `cartService` (`src/src/services/auth.ts`, second file segment):
  `updateCartQuantity`, `removeFromCart` against the remote `carts` table;
* `CartPage` (`src/unnamed/part_009`): subtotal / delivery-fee / total.

JS numbers are modelled as `Int` (the spec treats prices as integer pesos).
Remote calls are modelled by threading an environment of call outcomes
(`Bool` flags: does this supabase call return an error?) and, where the
claims need it, an explicit remote table state.
-/

/-- Product record as built by the app (id, name, price, image, categories,
badge). Read-only to the checkout core. -/
structure Product where
  id : String
  name : String
  price : Int
  image : String
  categories : List String
  badge : Option String
  deriving Repr, DecidableEq

/-- One line of the local cart: a product together with a quantity. -/
structure CartItem where
  product : Product
  quantity : Int
  deriving Repr, DecidableEq

/-- Order lifecycle status values. -/
inductive OrderStatus
  | Pending
  | Confirmed
  | Preparing
  | Ready
  | Delivered
  deriving Repr, DecidableEq

/-- Local `Order` shape from `App.tsx`. `deliveryAddress` and
`deliveryOption` are stored as the strings the code actually records
(`?? ''` / `|| 'delivery'` defaults applied). -/
structure Order where
  id : String
  name : String
  orderId : String
  items : List CartItem
  totalAmount : Int
  phone : String
  date : String
  status : OrderStatus
  payment : String
  driver : String
  deliveryAddress : String
  deliveryOption : String
  deriving Repr, DecidableEq

/-- The `userData` state of `App.tsx` (fields checkout reads). -/
structure UserData where
  fullName : String
  phone : String
  deriving Repr, DecidableEq

/-- The `deliveryInfo` argument of `handleCheckout` is untyped (`any`) and
only accessed via `deliveryInfo?.address` and `deliveryInfo?.deliveryOption`,
so both fields are optional. -/
structure DeliveryInfo where
  address : Option String
  deliveryOption : Option String
  deriving Repr, DecidableEq

/-- `deliveryInfo?.deliveryOption` for an optional `deliveryInfo`. -/
def deliveryOptionOf (di : Option DeliveryInfo) : Option String :=
  di.bind (fun d => d.deliveryOption)

/-- `deliveryInfo?.address` for an optional `deliveryInfo`. -/
def deliveryAddressOf (di : Option DeliveryInfo) : Option String :=
  di.bind (fun d => d.address)

/-- Subtotal reduce from `handleCheckout` line 282 and `CartPage`:
`reduce((total, item) => total + item.product.price * item.quantity, 0)`. -/
def itemsSubtotal (items : List CartItem) : Int :=
  items.foldl (fun total item => total + item.product.price * item.quantity) 0

/-- The fee term `deliveryInfo?.deliveryOption === "delivery" ? 59 : 0`:
compares the raw (possibly absent) option against the literal. -/
def deliveryFee (dOpt : Option String) : Int :=
  if dOpt = some "delivery" then 59 else 0

/-- The `total` computed at the top of `handleCheckout`. -/
def computeTotal (selectedItems : List CartItem) (dOpt : Option String) : Int :=
  itemsSubtotal selectedItems + deliveryFee dOpt

/-- JS truthy default `x || 'delivery'` applied to the optional delivery
option (absent or empty string falls back to `'delivery'`). -/
def recordedDeliveryOption (dOpt : Option String) : String :=
  match dOpt with
  | some d => if d = "" then "delivery" else d
  | none => "delivery"

/-- JS `deliveryInfo?.address || ''` (also covers the persisted path's
`delivery_address || null` followed by `?? ''`: both yield the address when
truthy and `''` otherwise). -/
def recordedAddress (di : Option DeliveryInfo) : String :=
  match deliveryAddressOf di with
  | some a => a
  | none => ""

/-- `String(n).padStart(3, '0')`. -/
def zeroPad3 (s : String) : String :=
  if s.length ≥ 3 then s else String.mk (List.replicate (3 - s.length) '0') ++ s

/-- The order-number label: `ORD-` + zero-padded (current order count + 1). -/
def orderNumberLabel (count : Nat) : String :=
  "ORD-" ++ zeroPad3 (toString (count + 1))

/-- Environment of a single `handleCheckout` run: the session lookup result,
the profile query result, each supabase insert's outcome, and the
non-deterministic server-supplied values (generated order id, `Date.now()`
timestamp string, today's date string). -/
structure CheckoutEnv where
  sessionUser : Option String
  profileExists : Bool
  orderInsertOk : Bool
  itemsInsertOk : Bool
  serverOrderId : String
  nowTs : String
  today : String
  deriving Repr, DecidableEq

/-- The slice of `App` component state checkout reads and writes. -/
structure AppState where
  cartItems : List CartItem
  orders : List Order
  userData : UserData
  userId : Option String
  showLoginRequired : Bool
  currentPage : String
  deriving Repr, DecidableEq

/-- Which user-visible flow a checkout run took (distinguished by the toasts
and control flow in the source: the three throw sites inside the try block,
the item-insert throw, and the success toast). -/
inductive CheckoutSignal
  | authRequired
  | profileIncomplete
  | orderInsertFailed
  | itemsInsertFailed
  | persisted
  deriving Repr, DecidableEq

/-- Result of a `handleCheckout` run: the new component state, the flow
taken, whether the remote `orders` insert succeeded, and which product ids
were removed from the remote cart. -/
structure CheckoutResult where
  state : AppState
  signal : CheckoutSignal
  remoteOrderInserted : Bool
  remoteCartRemovals : List String
  deriving Repr, DecidableEq

/-- The `newOrder` literal built on the success path of `handleCheckout`
(the inserted row echoes the payload, so `order_number`, `date`, `status`,
`payment`, `delivery_address`, `delivery_option` come from the payload and
`id` is the server-generated id). -/
def newOrderOf (env : CheckoutEnv) (userData : UserData) (ordersCount : Nat)
    (selectedItems : List CartItem) (di : Option DeliveryInfo) (total : Int) : Order :=
  { id := env.serverOrderId
  , name := userData.fullName
  , orderId := orderNumberLabel ordersCount
  , items := selectedItems
  , totalAmount := total
  , phone := userData.phone
  , date := env.today
  , status := OrderStatus.Pending
  , payment := "Cash"
  , driver := "Unassigned"
  , deliveryAddress := recordedAddress di
  , deliveryOption := recordedDeliveryOption (deliveryOptionOf di) }

/-- The `fallbackOrder` literal built in the catch block of `handleCheckout`
(client-side id = current timestamp). -/
def fallbackOrderOf (env : CheckoutEnv) (userData : UserData) (ordersCount : Nat)
    (selectedItems : List CartItem) (di : Option DeliveryInfo) (total : Int) : Order :=
  { id := env.nowTs
  , name := userData.fullName
  , orderId := orderNumberLabel ordersCount
  , items := selectedItems
  , totalAmount := total
  , phone := userData.phone
  , date := env.today
  , status := OrderStatus.Pending
  , payment := "Cash"
  , driver := "Unassigned"
  , deliveryAddress := recordedAddress di
  , deliveryOption := recordedDeliveryOption (deliveryOptionOf di) }

/-- The catch block of `handleCheckout`: appends the fallback order, filters
the selected lines out of the cart, navigates home. No remote cart removal
happens on this path. -/
def checkoutCatch (env : CheckoutEnv) (st : AppState)
    (selectedProductIds : List String) (selectedItems : List CartItem)
    (di : Option DeliveryInfo) (total : Int)
    (sig : CheckoutSignal) (remoteInserted : Bool) : CheckoutResult :=
  let fb := fallbackOrderOf env st.userData st.orders.length selectedItems di total
  { state := { st with
      orders := st.orders ++ [fb]
    , cartItems := st.cartItems.filter (fun item => !selectedProductIds.contains item.product.id)
    , currentPage := "home" }
  , signal := sig
  , remoteOrderInserted := remoteInserted
  , remoteCartRemovals := [] }

/-- `handleCheckout(selectedProductIds, deliveryInfo)` from `App.tsx`.
Every `throw` inside the try block lands in the catch block
(`checkoutCatch`), which still appends a local fallback order and clears
the selected cart lines. -/
def handleCheckout (env : CheckoutEnv) (st : AppState)
    (selectedProductIds : List String) (di : Option DeliveryInfo) : CheckoutResult :=
  let selectedItems := st.cartItems.filter (fun item => selectedProductIds.contains item.product.id)
  let total := computeTotal selectedItems (deliveryOptionOf di)
  match env.sessionUser with
  | none =>
      -- setShowLoginRequired(true); toast.error; throw new Error -> catch
      checkoutCatch env { st with showLoginRequired := true }
        selectedProductIds selectedItems di total CheckoutSignal.authRequired false
  | some _uid =>
      if !env.profileExists then
        -- profileError || !profile: toast.error; throw -> catch
        checkoutCatch env st selectedProductIds selectedItems di total
          CheckoutSignal.profileIncomplete false
      else if !env.orderInsertOk then
        -- orderErr: throw -> catch (no remote order row created)
        checkoutCatch env st selectedProductIds selectedItems di total
          CheckoutSignal.orderInsertFailed false
      else if !selectedItems.isEmpty && !env.itemsInsertOk then
        -- itemsErr after a successful order insert: throw -> catch
        checkoutCatch env st selectedProductIds selectedItems di total
          CheckoutSignal.itemsInsertFailed true
      else
        let newOrder := newOrderOf env st.userData st.orders.length selectedItems di total
        { state := { st with
            orders := st.orders ++ [newOrder]
          , cartItems := st.cartItems.filter (fun item => !selectedProductIds.contains item.product.id)
          , currentPage := "home" }
        , signal := CheckoutSignal.persisted
        , remoteOrderInserted := true
        , remoteCartRemovals := if st.userId.isSome then selectedProductIds else [] }

/-- A remote cart call issued by the local cart handlers (only the
quantity-update call matters for the claims below). -/
inductive CartRemoteCall
  | updateQty (userId : String) (productId : String) (q : Int)
  deriving Repr, DecidableEq

/-- `handleUpdateQuantity(productId, newQuantity)` from `App.tsx`: guard
`if (newQuantity < 1) return;`, then an optimistic local map, then a remote
mirror call when a `userId` is present. Returns the new local cart and the
list of remote calls issued. -/
def handleUpdateQuantity (userId : Option String) (cartItems : List CartItem)
    (productId : String) (newQuantity : Int) : List CartItem × List CartRemoteCall :=
  if newQuantity < 1 then (cartItems, [])
  else
    ( cartItems.map (fun item =>
        if item.product.id = productId then { item with quantity := newQuantity } else item)
    , match userId with
      | some uid => [CartRemoteCall.updateQty uid productId newQuantity]
      | none => [] )

/-- A row of the remote `carts` table. -/
structure CartRow where
  user_id : String
  product_id : String
  quantity : Int
  deriving Repr, DecidableEq

/-- Outcomes of the two supabase calls `updateCartQuantity` may issue:
does the `delete` call (via `removeFromCart`) error, does the `update`
call error. -/
structure CartRemoteEnv where
  deleteOk : Bool
  updateOk : Bool
  deriving Repr, DecidableEq

/-- `removeFromCart(userId, productId)` from the cart service: deletes the
`(user_id, product_id)` row; an error from the delete call is caught and
logged, leaving the table unchanged, and is never rethrown. Returns the
resulting remote table. -/
def removeFromCart (deleteOk : Bool) (rows : List CartRow)
    (userId productId : String) : List CartRow :=
  if deleteOk then
    rows.filter (fun r => !(r.user_id == userId && r.product_id == productId))
  else rows

/-- `updateCartQuantity(userId, productId, quantity)` from the cart service.
Returns the resulting remote table, the value returned to the caller
(`CartDatabaseItem | null`), and whether the call threw to the caller
(always `false`: the whole body is wrapped in try/catch returning `null`).
With `quantity < 1` it delegates to `removeFromCart` and returns `null`;
otherwise it updates the matching row and returns it via `.single()`
(which errors — caught, yielding `null` — unless exactly one row matched). -/
def updateCartQuantity (env : CartRemoteEnv) (rows : List CartRow)
    (userId productId : String) (quantity : Int) :
    List CartRow × Option CartRow × Bool :=
  if quantity < 1 then
    -- Remove item if quantity is 0 or less
    (removeFromCart env.deleteOk rows userId productId, none, false)
  else if env.updateOk then
    let updated := rows.map (fun r =>
      if r.user_id == userId && r.product_id == productId then
        { r with quantity := quantity } else r)
    match updated.filter (fun r => r.user_id == userId && r.product_id == productId) with
    | [r] => (updated, some r, false)
    | _ => (updated, none, false)
  else (rows, none, false)

/-- Driver record as held by `AdminOrders` (fields the handlers read). -/
structure Driver where
  id : String
  profileId : String
  name : String
  deriving Repr, DecidableEq

/-- `handleUpdateStatus(orderId, newStatus)` from `AdminOrders`: the remote
update runs first; on error the catch block leaves the local list untouched;
only on success is the local list mapped. -/
def handleUpdateStatus (remoteOk : Bool) (orders : List Order)
    (orderId : String) (newStatus : OrderStatus) : List Order :=
  if remoteOk then
    orders.map (fun o => if o.id = orderId then { o with status := newStatus } else o)
  else orders

/-- `handleAcceptOrder(orderId)` from `AdminOrders`: an unguarded remote set
of `status` to `'Confirmed'`; local list mapped only on remote success. -/
def handleAcceptOrder (remoteOk : Bool) (orders : List Order)
    (orderId : String) : List Order :=
  if remoteOk then
    orders.map (fun o =>
      if o.id = orderId then { o with status := OrderStatus.Confirmed } else o)
  else orders

/-- `handleAssignDriver(orderId, driverId)` from `AdminOrders`: returns
early on an empty selection, throws (to the catch block) when the driver id
is unknown, and maps the local list only after the remote assignment call
succeeds, recording the driver's display name. -/
def handleAssignDriver (remoteOk : Bool) (drivers : List Driver)
    (orders : List Order) (orderId driverId : String) : List Order :=
  if driverId = "" then orders
  else
    match drivers.find? (fun d => d.id == driverId) with
    | none => orders
    | some d =>
        if remoteOk then
          orders.map (fun o => if o.id = orderId then { o with driver := d.name } else o)
        else orders

/-- Remote state `handleDeleteOrder` acts on: the ids of rows in `orders`
and the `(order_id, product_id)` rows of `order_items`. -/
structure RemoteOrdersDB where
  orderRows : List String
  itemRows : List (String × String)
  deriving Repr, DecidableEq

/-- Outcomes of the calls `handleDeleteOrder` issues, plus whether a
row-level-security policy silently ignores the order delete (the call
reports no error yet removes nothing). -/
structure DeleteEnv where
  itemsDeleteOk : Bool
  orderDeleteOk : Bool
  orderRowStuck : Bool
  deriving Repr, DecidableEq

/-- How a `handleDeleteOrder` run ended, distinguished by the toasts in the
source: early return with no selection, a remote error caught, the
post-delete verification finding the row still present, or success. -/
inductive DeleteOutcome
  | noSelection
  | remoteError
  | authorizationSuspected
  | success
  deriving Repr, DecidableEq

/-- `handleDeleteOrder` from `AdminOrders`: deletes the order's
`order_items` rows first, then the order row, then re-selects the order id;
if the row is still present despite an error-free delete it throws (treated
as a permission failure), and the local list is filtered only after the
verification passes. -/
def handleDeleteOrder (env : DeleteEnv) (db : RemoteOrdersDB)
    (orders : List Order) (deleteOrderId : Option String) :
    RemoteOrdersDB × List Order × DeleteOutcome :=
  match deleteOrderId with
  | none => (db, orders, DeleteOutcome.noSelection)
  | some oid =>
      if !env.itemsDeleteOk then (db, orders, DeleteOutcome.remoteError)
      else
        let db1 : RemoteOrdersDB :=
          { db with itemRows := db.itemRows.filter (fun it => !(it.1 == oid)) }
        if !env.orderDeleteOk then (db1, orders, DeleteOutcome.remoteError)
        else
          let db2 : RemoteOrdersDB :=
            if env.orderRowStuck then db1
            else { db1 with orderRows := db1.orderRows.filter (fun i => !(i == oid)) }
          if db2.orderRows.contains oid then
            (db2, orders, DeleteOutcome.authorizationSuspected)
          else
            (db2, orders.filter (fun o => !(o.id == oid)), DeleteOutcome.success)

/-- The total computed by `CartPage`: subtotal over the lines whose product
id is selected, plus a 59 delivery fee when the chosen option is
`"delivery"`. -/
def cartPageTotal (cartItems : List CartItem) (selected : List String)
    (deliveryOption : String) : Int :=
  let selectedCartItems := cartItems.filter (fun item => selected.contains item.product.id)
  let subtotal := selectedCartItems.foldl
    (fun total item => total + item.product.price * item.quantity) 0
  let fee : Int := if deliveryOption = "delivery" then 59 else 0
  subtotal + fee

/-- Specification-style sum of price times quantity over a list of lines. -/
def sumPriceQty (items : List CartItem) : Int :=
  (items.map (fun item => item.product.price * item.quantity)).sum

/-- The selection of cart lines a checkout acts on (`selectedItems` in the
source). -/
def selectedItemsOf (cart : List CartItem) (ids : List String) : List CartItem :=
  cart.filter (fun item => ids.contains item.product.id)

/-- The cart lines left behind after a checkout removes the selection. -/
def remainingItemsOf (cart : List CartItem) (ids : List String) : List CartItem :=
  cart.filter (fun item => !ids.contains item.product.id)

/-- Concrete product fixture for witnesses and counterexamples. -/
def prodA : Product :=
  { id := "A", name := "Rose", price := 100, image := "", categories := [], badge := none }

/-- Concrete cart line fixture: two of `prodA`. -/
def itemA : CartItem := { product := prodA, quantity := 2 }

/-- Concrete user-data fixture. -/
def ud0 : UserData := { fullName := "Guest User", phone := "0000000000" }

/-- Concrete app-state fixture: one cart line, no orders, no stored user id. -/
def st0 : AppState :=
  { cartItems := [itemA], orders := [], userData := ud0
  , userId := none, showLoginRequired := false, currentPage := "cart" }

/-- Concrete checkout environment in which every remote call succeeds. -/
def envOk : CheckoutEnv :=
  { sessionUser := some "u1", profileExists := true
  , orderInsertOk := true, itemsInsertOk := true
  , serverOrderId := "srv-1", nowTs := "1700000000000", today := "2026-10-11" }

/-- Same environment but with no authenticated session. -/
def envNoAuth : CheckoutEnv := { envOk with sessionUser := none }

/-- The order the all-success checkout of `st0` with selection `["A"]` and no
delivery info produces. -/
def cexOrder : Order := newOrderOf envOk ud0 0 [itemA] none (computeTotal [itemA] none)

/-- An already-Confirmed order fixture for the accept-idempotence witness. -/
def exOrderConfirmed : Order := { cexOrder with id := "o1", status := OrderStatus.Confirmed }

/-- Concrete remote orders database fixture. -/
def db0 : RemoteOrdersDB := { orderRows := ["o1"], itemRows := [("o1", "A"), ("o2", "B")] }

/-- Concrete remote cart row fixture. -/
def row0 : CartRow := { user_id := "u1", product_id := "A", quantity := 3 }

theorem foldl_total_eq (items : List CartItem) :
    ∀ acc : Int,
      items.foldl (fun total item => total + item.product.price * item.quantity) acc
        = acc + sumPriceQty items := by
  induction items with
  | nil => intro acc; simp [sumPriceQty]
  | cons a t ih =>
      intro acc
      simp only [List.foldl_cons, sumPriceQty, List.map_cons, List.sum_cons] at *
      rw [ih]
      ring

theorem itemsSubtotal_eq (items : List CartItem) : itemsSubtotal items = sumPriceQty items := by
  simpa using foldl_total_eq items 0

theorem computeTotal_some_eq (S : List CartItem) (d : String) :
    computeTotal S (some d) = sumPriceQty S + (if d = "delivery" then (59 : Int) else 0) := by
  simp [computeTotal, itemsSubtotal_eq, deliveryFee]

theorem contains_filter_self (l : List String) (oid : String) :
    (l.filter (fun i => !(i == oid))).contains oid = false := by
  induction l with
  | nil => rfl
  | cons a t ih =>
      by_cases h : a == oid
      · simp [List.filter, h, ih]
      · simp [List.filter, h, List.contains_cons, ih]
        intro hoa
        exact h (by simp [hoa])

theorem all_not_filter (l : List CartItem) (p : CartItem → Bool) :
    ((l.filter fun x => !p x).all fun x => !p x) = true := by
  simp only [List.all_eq_true]
  intro x hx
  exact (List.mem_filter.mp hx).2

theorem status_set_self (o : Order) (h : o.status = OrderStatus.Confirmed) :
    { o with status := OrderStatus.Confirmed } = o := by
  cases o
  simp_all

theorem handleCheckout_appends (env : CheckoutEnv) (st : AppState)
    (ids : List String) (di : Option DeliveryInfo) :
    ∃ o, (handleCheckout env st ids di).state.orders = st.orders ++ [o]
      ∧ o.items = selectedItemsOf st.cartItems ids
      ∧ o.totalAmount = computeTotal (selectedItemsOf st.cartItems ids) (deliveryOptionOf di)
      ∧ o.deliveryOption = recordedDeliveryOption (deliveryOptionOf di)
      ∧ o.status = OrderStatus.Pending
      ∧ o.driver = "Unassigned" := by
  unfold handleCheckout checkoutCatch selectedItemsOf
  cases h : env.sessionUser with
  | none =>
      exact ⟨_, rfl, rfl, rfl, rfl, rfl, rfl⟩
  | some uid =>
      by_cases hp : env.profileExists <;>
        by_cases ho : env.orderInsertOk <;>
          simp only [hp, ho, Bool.not_true, Bool.not_false, Bool.false_and, if_true, if_false,
            Bool.true_and, ite_true, ite_false]
      · by_cases hi : (!(st.cartItems.filter fun item => ids.contains item.product.id).isEmpty
            && !env.itemsInsertOk) = true <;> simp only [hi, ite_true, ite_false]
        · exact ⟨_, rfl, rfl, rfl, rfl, rfl, rfl⟩
        · exact ⟨_, rfl, rfl, rfl, rfl, rfl, rfl⟩
      · exact ⟨_, rfl, rfl, rfl, rfl, rfl, rfl⟩
      · exact ⟨_, rfl, rfl, rfl, rfl, rfl, rfl⟩
      · exact ⟨_, rfl, rfl, rfl, rfl, rfl, rfl⟩

theorem accept_map_idem (oid : String) (l : List Order) :
    ((l.map fun o => if o.id = oid then { o with status := OrderStatus.Confirmed } else o).map
        fun o => if o.id = oid then { o with status := OrderStatus.Confirmed } else o)
      = l.map fun o => if o.id = oid then { o with status := OrderStatus.Confirmed } else o := by
  induction l with
  | nil => rfl
  | cons a t ih =>
      simp only [List.map_cons, ih]
      congr 1
      by_cases h : a.id = oid <;> simp [h]

theorem accept_map_fixed (oid : String) (l : List Order)
    (h : ∀ o ∈ l, o.id = oid → o.status = OrderStatus.Confirmed) :
    (l.map fun o => if o.id = oid then { o with status := OrderStatus.Confirmed } else o) = l := by
  induction l with
  | nil => rfl
  | cons a t ih =>
      have ht := ih (fun o ho hoid => h o (List.mem_cons_of_mem a ho) hoid)
      by_cases ha : a.id = oid
      · rw [List.map_cons, if_pos ha, status_set_self a (h a (List.mem_cons_self a t) ha), ht]
      · rw [List.map_cons, if_neg ha, ht]

/-- Claim C3: for every selection S of cart lines and every delivery option
d supplied to checkout, the computed total equals the sum of
product.price × quantity over the lines of S plus 59 when d = "delivery"
and plus 0 otherwise; the CartPage total computation agrees on the
selected lines. -/
theorem checkout_total_invariant (S : List CartItem) (d : String)
    (cart : List CartItem) (sel : List String) :
    computeTotal S (some d) = sumPriceQty S + (if d = "delivery" then (59 : Int) else 0)
    ∧ cartPageTotal cart sel d
        = sumPriceQty (selectedItemsOf cart sel) + (if d = "delivery" then (59 : Int) else 0) := by
  constructor
  · exact computeTotal_some_eq S d
  · simp [cartPageTotal, selectedItemsOf, foldl_total_eq]

/-- Claim C9: `handleUpdateQuantity` with newQuantity < 1 is a no-op — the
local cart is returned unchanged and no remote call is issued. -/
theorem updateQuantity_below_one_noop (userId : Option String) (cart : List CartItem)
    (productId : String) (newQuantity : Int) (h : newQuantity < 1) :
    handleUpdateQuantity userId cart productId newQuantity = (cart, []) := by
  unfold handleUpdateQuantity
  simp [h]

/-- Concrete instance of `updateQuantity_below_one_noop` at newQuantity = 0. -/
theorem updateQuantity_below_one_noop_witness :
    handleUpdateQuantity (some "u1") [itemA] "A" 0 = ([itemA], []) :=
  updateQuantity_below_one_noop (some "u1") [itemA] "A" 0 (by decide)

/-- Claim C10: the remote cart service `updateCartQuantity`, called with any
quantity < 1, does not update the line: it delegates to `removeFromCart`
(which deletes the `(userId, productId)` row when the remote delete
succeeds) and returns null without throwing. -/
theorem updateCartQuantity_subOne_deletes (env : CartRemoteEnv) (rows : List CartRow)
    (userId productId : String) (quantity : Int) (h : quantity < 1) :
    updateCartQuantity env rows userId productId quantity
      = (removeFromCart env.deleteOk rows userId productId, none, false)
    ∧ (env.deleteOk = true →
        (updateCartQuantity env rows userId productId quantity).1
          = rows.filter (fun r => !(r.user_id == userId && r.product_id == productId))) := by
  constructor
  · unfold updateCartQuantity
    simp [h]
  · intro hd
    unfold updateCartQuantity removeFromCart
    simp [h, hd]

/-- Concrete instance of `updateCartQuantity_subOne_deletes` at quantity 0:
the single matching row is deleted and null is returned. -/
theorem updateCartQuantity_subOne_deletes_witness :
    updateCartQuantity { deleteOk := true, updateOk := true } [row0] "u1" "A" 0
      = (removeFromCart true [row0] "u1" "A", none, false)
    ∧ updateCartQuantity { deleteOk := true, updateOk := true } [row0] "u1" "A" 0
      = ([], none, false) := by
  have h := updateCartQuantity_subOne_deletes
    { deleteOk := true, updateOk := true } [row0] "u1" "A" 0 (by decide)
  exact ⟨h.1, by rw [h.1]; decide⟩

/-- Claim C6: for every admin order mutation (status update, accept, driver
assignment, delete), a remote-store error leaves the local order list
completely unchanged — for delete this covers both the order-items delete
call and the order delete call failing. -/
theorem admin_mutation_error_leaves_local (orders : List Order) (oid : String)
    (s : OrderStatus) (drivers : List Driver) (did : String)
    (db : RemoteOrdersDB) (sel : Option String) (b1 b2 : Bool) :
    handleUpdateStatus false orders oid s = orders
    ∧ handleAcceptOrder false orders oid = orders
    ∧ handleAssignDriver false drivers orders oid did = orders
    ∧ (handleDeleteOrder { itemsDeleteOk := false, orderDeleteOk := b1, orderRowStuck := b2 }
        db orders sel).2.1 = orders
    ∧ (handleDeleteOrder { itemsDeleteOk := b1, orderDeleteOk := false, orderRowStuck := b2 }
        db orders sel).2.1 = orders := by
  refine ⟨rfl, rfl, ?_, ?_, ?_⟩
  · unfold handleAssignDriver
    by_cases h : did = ""
    · simp [h]
    · simp only [h, if_false, ite_false]
      cases drivers.find? (fun d => d.id == did) <;> simp
  · cases sel <;> simp [handleDeleteOrder]
  · cases sel with
    | none => rfl
    | some o => cases b1 <;> simp [handleDeleteOrder]

/-- Claim C8: accept is an unguarded direct set of status to Confirmed, so it
is idempotent on the local order list for every orderId, and when the target
order already has status Confirmed the list is left exactly as it was. -/
theorem accept_confirmed_idempotent (orders : List Order) (oid : String) :
    handleAcceptOrder true (handleAcceptOrder true orders oid) oid
        = handleAcceptOrder true orders oid
    ∧ ((∀ o ∈ orders, o.id = oid → o.status = OrderStatus.Confirmed) →
        handleAcceptOrder true orders oid = orders) := by
  constructor
  · simp only [handleAcceptOrder, if_pos rfl]
    exact accept_map_idem oid orders
  · intro h
    simp only [handleAcceptOrder, if_pos rfl]
    exact accept_map_fixed oid orders h

/-- Concrete instance of `accept_confirmed_idempotent` on a one-order list
whose order is already Confirmed. -/
theorem accept_confirmed_idempotent_witness :
    handleAcceptOrder true (handleAcceptOrder true [exOrderConfirmed] "o1") "o1"
        = handleAcceptOrder true [exOrderConfirmed] "o1"
    ∧ handleAcceptOrder true [exOrderConfirmed] "o1" = [exOrderConfirmed] :=
  ⟨(accept_confirmed_idempotent [exOrderConfirmed] "o1").1,
   (accept_confirmed_idempotent [exOrderConfirmed] "o1").2 (by decide)⟩

/-- Claim C7: order deletion deletes all order-items rows before the order
row, then performs a post-delete existence check. If the order row still
exists after an error-free delete call (first conjunct, RLS silently kept
the row), the run ends as an authorization error, the local list is
untouched, and the items are already gone remotely; otherwise (second
conjunct) the verification passes and the local list is filtered. -/
theorem delete_order_verify_and_cascade (db : RemoteOrdersDB) (orders : List Order)
    (oid : String) (h : db.orderRows.contains oid = true) :
    handleDeleteOrder { itemsDeleteOk := true, orderDeleteOk := true, orderRowStuck := true }
        db orders (some oid)
      = ({ db with itemRows := db.itemRows.filter (fun it => !(it.1 == oid)) },
         orders, DeleteOutcome.authorizationSuspected)
    ∧ handleDeleteOrder { itemsDeleteOk := true, orderDeleteOk := true, orderRowStuck := false }
        db orders (some oid)
      = ({ orderRows := db.orderRows.filter (fun i => !(i == oid))
         , itemRows := db.itemRows.filter (fun it => !(it.1 == oid)) },
         orders.filter (fun o => !(o.id == oid)), DeleteOutcome.success) := by
  constructor
  · have h' : oid ∈ db.orderRows := by simpa using h
    simp [handleDeleteOrder, h']
  · simp [handleDeleteOrder, contains_filter_self]

/-- Concrete instance of `delete_order_verify_and_cascade` on `db0`, whose
order "o1" survives the silently-ignored delete. -/
theorem delete_order_verify_and_cascade_witness :
    handleDeleteOrder { itemsDeleteOk := true, orderDeleteOk := true, orderRowStuck := true }
        db0 [] (some "o1")
      = ({ orderRows := ["o1"], itemRows := [("o2", "B")] }, [],
         DeleteOutcome.authorizationSuspected) := by
  have h := (delete_order_verify_and_cascade db0 [] "o1" (by decide)).1
  rw [h]
  decide

/-- Claim C1 is false on the code: invoking checkout with no authenticated
session at the concrete state `st0` with selection ["A"] both appends a
(fallback) order to the order list and removes the selected cart line. -/
theorem checkout_no_session_counterexample :
    ¬ ((handleCheckout envNoAuth st0 ["A"] none).state.orders = st0.orders
       ∧ (handleCheckout envNoAuth st0 ["A"] none).state.cartItems = st0.cartItems) := by
  decide

/-- Claim C1 amended: with no authenticated session, checkout signals
AuthRequired (login modal raised, no remote order insert attempted, no
remote cart removal), but the thrown error lands in the generic catch
block, which still appends a local fallback order and removes the cart
lines of the selected product ids. -/
theorem checkout_no_session_falls_back (env : CheckoutEnv) (st : AppState)
    (ids : List String) (di : Option DeliveryInfo) (h : env.sessionUser = none) :
    handleCheckout env st ids di
      = { state := { st with
            showLoginRequired := true
          , orders := st.orders ++ [fallbackOrderOf env st.userData st.orders.length
              (selectedItemsOf st.cartItems ids) di
              (computeTotal (selectedItemsOf st.cartItems ids) (deliveryOptionOf di))]
          , cartItems := remainingItemsOf st.cartItems ids
          , currentPage := "home" }
        , signal := CheckoutSignal.authRequired
        , remoteOrderInserted := false
        , remoteCartRemovals := [] } := by
  unfold handleCheckout checkoutCatch selectedItemsOf remainingItemsOf
  rw [h]

/-- Concrete instance of `checkout_no_session_falls_back` at `st0`. -/
theorem checkout_no_session_falls_back_witness :
    handleCheckout envNoAuth st0 ["A"] none
      = { state := { st0 with
            showLoginRequired := true
          , orders := st0.orders ++ [fallbackOrderOf envNoAuth st0.userData st0.orders.length
              (selectedItemsOf st0.cartItems ["A"]) none
              (computeTotal (selectedItemsOf st0.cartItems ["A"]) (deliveryOptionOf none))]
          , cartItems := remainingItemsOf st0.cartItems ["A"]
          , currentPage := "home" }
        , signal := CheckoutSignal.authRequired
        , remoteOrderInserted := false
        , remoteCartRemovals := [] } :=
  checkout_no_session_falls_back envNoAuth st0 ["A"] none rfl

/-- Claim C2 is false on the code when the caller passes no deliveryInfo:
the all-success checkout of `st0` (one line, price 100, quantity 2) records
deliveryOption "delivery" (the payload default) yet charges no fee, so the
produced order violates totalAmount = Σ price·qty + (59 if deliveryOption =
"delivery" else 0). -/
theorem order_total_invariant_counterexample :
    (handleCheckout envOk st0 ["A"] none).state.orders = [cexOrder]
    ∧ cexOrder.deliveryOption = "delivery"
    ∧ cexOrder.totalAmount
        ≠ sumPriceQty cexOrder.items
          + (if cexOrder.deliveryOption = "delivery" then (59 : Int) else 0) := by
  decide

/-- Claim C2 amended: every order produced by checkout (persisted and
fallback path alike) satisfies totalAmount = Σ item.price × item.quantity +
(59 if the order's recorded deliveryOption = "delivery" else 0), provided
the caller supplied a nonempty deliveryOption; with no deliveryInfo or no
deliveryOption the fee charged is 0 while the recorded option defaults to
"delivery", and the invariant fails. -/
theorem order_total_invariant_with_option (env : CheckoutEnv) (st : AppState)
    (ids : List String) (di : Option DeliveryInfo) (d : String)
    (hd : deliveryOptionOf di = some d) (hne : d ≠ "") :
    ∃ o, (handleCheckout env st ids di).state.orders = st.orders ++ [o]
      ∧ o.totalAmount = sumPriceQty o.items
          + (if o.deliveryOption = "delivery" then (59 : Int) else 0) := by
  obtain ⟨o, ho, hitems, htot, hopt, _, _⟩ := handleCheckout_appends env st ids di
  refine ⟨o, ho, ?_⟩
  rw [hd] at htot hopt
  have hrec : recordedDeliveryOption (some d) = d := by
    simp [recordedDeliveryOption, hne]
  rw [htot, hitems, hopt, hrec, computeTotal_some_eq]

/-- Concrete instance of `order_total_invariant_with_option` with the
supplied option "pickup". -/
theorem order_total_invariant_with_option_witness :
    ∃ o, (handleCheckout envOk st0 ["A"]
            (some { address := none, deliveryOption := some "pickup" })).state.orders
          = st0.orders ++ [o]
      ∧ o.totalAmount = sumPriceQty o.items
          + (if o.deliveryOption = "delivery" then (59 : Int) else 0) :=
  order_total_invariant_with_option envOk st0 ["A"]
    (some { address := none, deliveryOption := some "pickup" }) "pickup" rfl (by decide)

/-- Claim C4: when the session, profile, order insert and order-item inserts
all succeed, checkout removes every selected product id line from the cart
(no selected line remains) and appends an order whose items are exactly the
checkout-time snapshot of the selected cart lines — the item prices are the
values held in the cart at checkout, so later product price edits cannot
affect them. -/
theorem checkout_success_snapshot (env : CheckoutEnv) (st : AppState)
    (ids : List String) (di : Option DeliveryInfo) (uid : String)
    (hs : env.sessionUser = some uid) (hp : env.profileExists = true)
    (ho : env.orderInsertOk = true) (hi : env.itemsInsertOk = true) :
    handleCheckout env st ids di
      = { state := { st with
            orders := st.orders ++ [newOrderOf env st.userData st.orders.length
              (selectedItemsOf st.cartItems ids) di
              (computeTotal (selectedItemsOf st.cartItems ids) (deliveryOptionOf di))]
          , cartItems := remainingItemsOf st.cartItems ids
          , currentPage := "home" }
        , signal := CheckoutSignal.persisted
        , remoteOrderInserted := true
        , remoteCartRemovals := if st.userId.isSome then ids else [] }
    ∧ (newOrderOf env st.userData st.orders.length (selectedItemsOf st.cartItems ids) di
        (computeTotal (selectedItemsOf st.cartItems ids) (deliveryOptionOf di))).items
        = selectedItemsOf st.cartItems ids
    ∧ ((handleCheckout env st ids di).state.cartItems.all
        fun item => !ids.contains item.product.id) = true := by
  have h1 : handleCheckout env st ids di
      = { state := { st with
            orders := st.orders ++ [newOrderOf env st.userData st.orders.length
              (selectedItemsOf st.cartItems ids) di
              (computeTotal (selectedItemsOf st.cartItems ids) (deliveryOptionOf di))]
          , cartItems := remainingItemsOf st.cartItems ids
          , currentPage := "home" }
        , signal := CheckoutSignal.persisted
        , remoteOrderInserted := true
        , remoteCartRemovals := if st.userId.isSome then ids else [] } := by
    unfold handleCheckout selectedItemsOf remainingItemsOf
    rw [hs]
    simp only [hp, ho, hi, Bool.not_true, Bool.and_false, Bool.not_false, ite_false, ite_true]
    rfl
  refine ⟨h1, rfl, ?_⟩
  rw [h1]
  exact all_not_filter st.cartItems (fun item => ids.contains item.product.id)

/-- Concrete instance of `checkout_success_snapshot` at `st0` with an
authenticated session and all inserts succeeding. -/
theorem checkout_success_snapshot_witness :
    (newOrderOf envOk st0.userData st0.orders.length (selectedItemsOf st0.cartItems ["A"]) none
        (computeTotal (selectedItemsOf st0.cartItems ["A"]) (deliveryOptionOf none))).items
      = selectedItemsOf st0.cartItems ["A"]
    ∧ ((handleCheckout envOk st0 ["A"] none).state.cartItems.all
        fun item => !(["A"].contains item.product.id)) = true :=
  ⟨(checkout_success_snapshot envOk st0 ["A"] none "u1" rfl rfl rfl rfl).2.1,
   (checkout_success_snapshot envOk st0 ["A"] none "u1" rfl rfl rfl rfl).2.2⟩

/-- Claim C5: when the session and profile checks pass but the order insert
fails, a fallback order is still appended (status Pending, driver
Unassigned) carrying the same computed total as the order the non-failing
path would append, and the selected cart lines are still removed. -/
theorem checkout_insert_fail_fallback (env : CheckoutEnv) (st : AppState)
    (ids : List String) (di : Option DeliveryInfo) (uid : String)
    (hs : env.sessionUser = some uid) (hp : env.profileExists = true)
    (ho : env.orderInsertOk = false) :
    handleCheckout env st ids di
      = { state := { st with
            orders := st.orders ++ [fallbackOrderOf env st.userData st.orders.length
              (selectedItemsOf st.cartItems ids) di
              (computeTotal (selectedItemsOf st.cartItems ids) (deliveryOptionOf di))]
          , cartItems := remainingItemsOf st.cartItems ids
          , currentPage := "home" }
        , signal := CheckoutSignal.orderInsertFailed
        , remoteOrderInserted := false
        , remoteCartRemovals := [] }
    ∧ (fallbackOrderOf env st.userData st.orders.length (selectedItemsOf st.cartItems ids) di
        (computeTotal (selectedItemsOf st.cartItems ids) (deliveryOptionOf di))).status
        = OrderStatus.Pending
    ∧ (fallbackOrderOf env st.userData st.orders.length (selectedItemsOf st.cartItems ids) di
        (computeTotal (selectedItemsOf st.cartItems ids) (deliveryOptionOf di))).driver
        = "Unassigned"
    ∧ (fallbackOrderOf env st.userData st.orders.length (selectedItemsOf st.cartItems ids) di
        (computeTotal (selectedItemsOf st.cartItems ids) (deliveryOptionOf di))).totalAmount
        = (newOrderOf env st.userData st.orders.length (selectedItemsOf st.cartItems ids) di
            (computeTotal (selectedItemsOf st.cartItems ids) (deliveryOptionOf di))).totalAmount := by
  refine ⟨?_, rfl, rfl, rfl⟩
  unfold handleCheckout checkoutCatch selectedItemsOf remainingItemsOf
  rw [hs]
  simp only [hp, ho, Bool.not_true, Bool.not_false, ite_false, ite_true]
  rfl

/-- Concrete instance of `checkout_insert_fail_fallback` at `st0` with the
order insert failing. -/
theorem checkout_insert_fail_fallback_witness :
    (fallbackOrderOf { envOk with orderInsertOk := false } st0.userData st0.orders.length
        (selectedItemsOf st0.cartItems ["A"]) none
        (computeTotal (selectedItemsOf st0.cartItems ["A"]) (deliveryOptionOf none))).status
      = OrderStatus.Pending
    ∧ (fallbackOrderOf { envOk with orderInsertOk := false } st0.userData st0.orders.length
        (selectedItemsOf st0.cartItems ["A"]) none
        (computeTotal (selectedItemsOf st0.cartItems ["A"]) (deliveryOptionOf none))).driver
      = "Unassigned"
    ∧ (fallbackOrderOf { envOk with orderInsertOk := false } st0.userData st0.orders.length
        (selectedItemsOf st0.cartItems ["A"]) none
        (computeTotal (selectedItemsOf st0.cartItems ["A"]) (deliveryOptionOf none))).totalAmount
      = (newOrderOf { envOk with orderInsertOk := false } st0.userData st0.orders.length
          (selectedItemsOf st0.cartItems ["A"]) none
          (computeTotal (selectedItemsOf st0.cartItems ["A"]) (deliveryOptionOf none))).totalAmount :=
  ⟨(checkout_insert_fail_fallback { envOk with orderInsertOk := false } st0 ["A"] none "u1"
      rfl rfl rfl).2.1,
   (checkout_insert_fail_fallback { envOk with orderInsertOk := false } st0 ["A"] none "u1"
      rfl rfl rfl).2.2.1,
   (checkout_insert_fail_fallback { envOk with orderInsertOk := false } st0 ["A"] none "u1"
      rfl rfl rfl).2.2.2⟩
